import Mathlib

/-!
Shallow embedding of `truck-geometry/src/decorators/intersection_curve.rs`
(the intersection-curve engine of the truck B-rep kernel).

Modelling conventions:
* `f64` scalars are modelled as exact rationals `ℚ` wherever the source only
  uses field operations; the single place where the source takes a square
  root (`Vector3::normalize` inside `der`) is modelled in `ℝ`, with the
  rational data embedded via `Rat.cast`.
* Points (`Point3`) and vectors (`Vector3`) share one representation `Vec3 ℚ`
  (the source converts freely between them via `from_vec`/`to_vec`).
* The generic bounds `S: ParametricSurface3D + SearchNearestParameter` and
  `C: ParametricCurve3D + SearchNearestParameter` are modelled as structures
  of evaluation functions (`Surface`, `Curve`): the surfaces and the leader
  are opaque external capabilities to this core.
* Rust `Option` is Lean `Option`; a Rust panic (`unwrap`, which has no
  recoverable-error channel in the signature) is modelled by the dedicated
  constructor `PanicOr.panics`, kept distinct from a recoverable `none`.
-/

namespace Truck

/-- Three-component vector over a scalar type, standing for cgmath's
`Vector3`/`Point3` (the two are identified; the source converts between
them with `Point3::from_vec` and `point.dot`). -/
structure Vec3 (α : Type) where
  x : α
  y : α
  z : α
deriving DecidableEq, Repr

/-- Dot product, as in cgmath's `InnerSpace::dot`. -/
def Vec3.dot {α : Type} [CommRing α] (a b : Vec3 α) : α :=
  a.x * b.x + a.y * b.y + a.z * b.z

/-- Cross product, as in cgmath's `Vector3::cross`. -/
def Vec3.cross {α : Type} [CommRing α] (a b : Vec3 α) : Vec3 α :=
  ⟨a.y * b.z - a.z * b.y, a.z * b.x - a.x * b.z, a.x * b.y - a.y * b.x⟩

/-- Scalar multiple `v * s`, as in cgmath's `Vector3 * f64`. -/
def Vec3.smul {α : Type} [CommRing α] (v : Vec3 α) (s : α) : Vec3 α :=
  ⟨v.x * s, v.y * s, v.z * s⟩

/-- Componentwise sum, as in cgmath's `Vector3 + Vector3`. -/
def Vec3.add {α : Type} [CommRing α] (a b : Vec3 α) : Vec3 α :=
  ⟨a.x + b.x, a.y + b.y, a.z + b.z⟩

/-- Componentwise difference, as in cgmath's `Point3 - Point3`. -/
def Vec3.sub {α : Type} [CommRing α] (a b : Vec3 α) : Vec3 α :=
  ⟨a.x - b.x, a.y - b.y, a.z - b.z⟩

/-- Rational points and vectors of the embedding. -/
abbrev V3 : Type := Vec3 ℚ

/-- Embedding of a rational vector into the reals (used only for the one
square-root computation in `IntersectionCurve.der`). -/
def Vec3.toReal (v : V3) : Vec3 ℝ :=
  ⟨(v.x : ℝ), (v.y : ℝ), (v.z : ℝ)⟩

/-- Modelled from the spec: the fixed global near-tolerance of the kernel
(`truck_base::tolerance::TOLERANCE = 1.0e-7`, not under `src/`); the spec
calls it "the maximum Euclidean distance at which two points are considered
coincident". -/
def TOLERANCE : ℚ := 1 / 10000000

/-- Squared Euclidean distance between two points. -/
def dist2 (p q : V3) : ℚ := Vec3.dot (p.sub q) (p.sub q)

/-- Modelled from the spec: `near`, the proximity predicate of
`truck_base::tolerance::Tolerance` (not under `src/`): two points are near
when their Euclidean distance is at most `TOLERANCE`; stated on squared
distances, which is equivalent and keeps the predicate inside `ℚ`. -/
def near (p q : V3) : Prop := dist2 p q ≤ TOLERANCE * TOLERANCE

instance (p q : V3) : Decidable (near p q) := by
  unfold near
  infer_instance

/-- Column-major 3×3 matrix, standing for cgmath's `Matrix3` (whose three
fields are its columns). -/
structure Matrix3 where
  c0 : V3
  c1 : V3
  c2 : V3
deriving DecidableEq, Repr

/-- cgmath's `Matrix3::from_cols`. -/
def Matrix3.from_cols (a b c : V3) : Matrix3 := ⟨a, b, c⟩

/-- cgmath's `Matrix3::transpose`: the columns of the result are the rows of
the argument. -/
def Matrix3.transpose (m : Matrix3) : Matrix3 :=
  ⟨⟨m.c0.x, m.c1.x, m.c2.x⟩, ⟨m.c0.y, m.c1.y, m.c2.y⟩, ⟨m.c0.z, m.c1.z, m.c2.z⟩⟩

/-- cgmath's `Matrix3::determinant` (triple product of the columns). -/
def Matrix3.determinant (m : Matrix3) : ℚ := Vec3.dot m.c0 (Vec3.cross m.c1 m.c2)

/-- cgmath's `SquareMatrix::invert` for `Matrix3`: `None` when the
determinant vanishes (the floating-point code tests the determinant against
zero with `ulps_eq`; the embedding uses exact equality), otherwise the
cross-product (adjugate) formula
`from_cols(c1×c2/det, c2×c0/det, c0×c1/det).transpose()`. -/
def Matrix3.invert (m : Matrix3) : Option Matrix3 :=
  if m.determinant = 0 then none
  else
    some (Matrix3.transpose
      ⟨(Vec3.cross m.c1 m.c2).smul (1 / m.determinant),
       (Vec3.cross m.c2 m.c0).smul (1 / m.determinant),
       (Vec3.cross m.c0 m.c1).smul (1 / m.determinant)⟩)

/-- Matrix–vector product `m * v` (column-major, as in cgmath). -/
def Matrix3.mulVec (m : Matrix3) (v : V3) : V3 :=
  ((m.c0.smul v.x).add (m.c1.smul v.y)).add (m.c2.smul v.z)

/-- The surface capability consumed by the engine: the trait bound
`S: ParametricSurface3D + SearchNearestParameter<Point = Point3, Parameter = (f64, f64)>`
of the source, as a structure of evaluation functions. -/
structure Surface where
  search_nearest_parameter : V3 → Option (ℚ × ℚ) → ℕ → Option (ℚ × ℚ)
  subs : ℚ → ℚ → V3
  normal : ℚ → ℚ → V3

/-- The leader-curve capability consumed by the engine: the trait bound
`C: ParametricCurve3D + SearchNearestParameter<Point = Point3, Parameter = f64>`
of the source. -/
structure Curve where
  subs : ℚ → V3
  der : ℚ → V3
  parameter_range : ℚ × ℚ
  search_nearest_parameter : V3 → Option ℚ → ℕ → Option ℚ

/-- The `for _ in 0..trials` loop of `double_projection`, with the loop
counter as structural fuel.  Each iteration re-runs nearest-parameter search
on both surfaces (inner budget 10, propagating failure via `?`), checks the
triple proximity condition, and otherwise takes the linear-correction step
through `Matrix3::from_cols(n0, n1, normal).transpose().invert()?`. -/
def double_projection_loop (surface0 surface1 : Surface) (normal : V3) :
    V3 → ℚ × ℚ → ℚ × ℚ → ℕ → Option (V3 × (ℚ × ℚ) × (ℚ × ℚ))
  | _, _, _, 0 => none
  | point, uv0, uv1, n + 1 =>
    match surface0.search_nearest_parameter point (some uv0) 10 with
    | none => none
    | some uv0' =>
      let pt0 := surface0.subs uv0'.1 uv0'.2
      match surface1.search_nearest_parameter point (some uv1) 10 with
      | none => none
      | some uv1' =>
        let pt1 := surface1.subs uv1'.1 uv1'.2
        if near point pt0 ∧ near point pt1 ∧ near pt0 pt1 then
          some (point, uv0', uv1')
        else
          let n0 := surface0.normal uv0'.1 uv0'.2
          let n1 := surface1.normal uv1'.1 uv1'.2
          let mat := (Matrix3.from_cols n0 n1 normal).transpose
          match mat.invert with
          | none => none
          | some inv =>
            double_projection_loop surface0 surface1 normal
              (inv.mulVec ⟨Vec3.dot pt0 n0, Vec3.dot pt1 n1, Vec3.dot point normal⟩)
              uv0' uv1' n

/-- `double_projection` of the source: initial nearest-parameter searches
with the supplied hints and inner budget 10 (failure of either propagates
via `?`), then the bounded correction loop. -/
def double_projection (surface0 : Surface) (hint0 : Option (ℚ × ℚ))
    (surface1 : Surface) (hint1 : Option (ℚ × ℚ))
    (point : V3) (normal : V3) (trials : ℕ) :
    Option (V3 × (ℚ × ℚ) × (ℚ × ℚ)) :=
  match surface0.search_nearest_parameter point hint0 10 with
  | none => none
  | some uv0 =>
    match surface1.search_nearest_parameter point hint1 10 with
    | none => none
    | some uv1 => double_projection_loop surface0 surface1 normal point uv0 uv1 trials

/-- Result of a Rust computation that can panic: `panics` models an
`unwrap()` failure (a hard, unrecoverable failure — the Rust signature has
no `Option`/`Result` channel there), `value a` a normal return. -/
inductive PanicOr (α : Type) where
  | panics : PanicOr α
  | value : α → PanicOr α
deriving DecidableEq, Repr

/-- The intersection-curve entity `IntersectionCurve<C, S>`: two surfaces,
the leader curve, and the stored tolerance `tol`. -/
structure IntersectionCurve where
  surface0 : Surface
  surface1 : Surface
  leader : Curve
  tol : ℚ

/-- Accessor `IntersectionCurve::tolerance`. -/
def IntersectionCurve.tolerance (c : IntersectionCurve) : ℚ := c.tol

/-- `IntersectionCurve::search_triple`: the solver invoked with the leader's
point and derivative at `t`, no hints, and outer budget 100. -/
def IntersectionCurve.search_triple (c : IntersectionCurve) (t : ℚ) :
    Option (V3 × (ℚ × ℚ) × (ℚ × ℚ)) :=
  double_projection c.surface0 none c.surface1 none (c.leader.subs t) (c.leader.der t) 100

/-- `ParametricCurve::subs` for the entity:
`self.search_triple(t).unwrap().0` — the `unwrap` panic is `panics`. -/
def IntersectionCurve.subs (c : IntersectionCurve) (t : ℚ) : PanicOr V3 :=
  match c.search_triple t with
  | none => PanicOr.panics
  | some r => PanicOr.value r.1

/-- cgmath's `InnerSpace::normalize`: `v * (1 / sqrt (v ⬝ v))`.  This is the
one genuinely irrational operation of the source, hence stated over `ℝ`. -/
noncomputable def Vec3.normalize (v : Vec3 ℝ) : Vec3 ℝ :=
  v.smul (1 / Real.sqrt (Vec3.dot v v))

/-- `ParametricCurve::der` for the entity: re-run the solver, take the
normalized cross product of the two surface normals at the converged
parameters, and rescale it by `n.dot(n) / d.dot(n)` where `n` is the
leader's derivative at `t`.  The `unwrap` on the solver result is
`panics`. -/
noncomputable def IntersectionCurve.der (c : IntersectionCurve) (t : ℚ) :
    PanicOr (Vec3 ℝ) :=
  let n := (c.leader.der t).toReal
  match c.search_triple t with
  | none => PanicOr.panics
  | some r =>
    let p0 := r.2.1
    let p1 := r.2.2
    let d := (Vec3.cross (c.surface0.normal p0.1 p0.2).toReal
      (c.surface1.normal p1.1 p1.2).toReal).normalize
    PanicOr.value (d.smul (Vec3.dot n n / Vec3.dot d n))

/-- `SearchParameter::search_parameter` for the entity: the leader's
nearest-parameter search, `unwrap`ped (panic on `None`), then acceptance of
the candidate iff the entity's exact point at it (`subs`, which itself can
panic) is near the query point. -/
def IntersectionCurve.search_parameter (c : IntersectionCurve) (point : V3)
    (hint : Option ℚ) (trials : ℕ) : PanicOr (Option ℚ) :=
  match c.leader.search_nearest_parameter point hint trials with
  | none => PanicOr.panics
  | some t =>
    match c.subs t with
    | PanicOr.panics => PanicOr.panics
    | PanicOr.value pt =>
      if near pt point then PanicOr.value (some t) else PanicOr.value none

/-- `SearchNearestParameter::search_nearest_parameter` for the entity:
plain delegation to the leader (documented in the source as approximate). -/
def IntersectionCurve.search_nearest_parameter (c : IntersectionCurve)
    (point : V3) (hint : Option ℚ) (trials : ℕ) : Option ℚ :=
  c.leader.search_nearest_parameter point hint trials

/-- `Invertible::invert` for the entity, as a state transformer; the
leader's own (capability) inversion is the parameter `ci`. -/
def IntersectionCurve.invert (ci : Curve → Curve) (c : IntersectionCurve) :
    IntersectionCurve :=
  { c with leader := ci c.leader }

/-- cgmath's column-major `Matrix4`: `m i j` is the entry in column `i`,
row `j`, written `trans[i][j]` in the source. -/
def Matrix4 : Type := Fin 4 → Fin 4 → ℚ

/-- `Transformed::<Matrix4>::transform_by` for the entity, as a state
transformer; the surfaces' and leader's own (capability) transforms are the
parameters `st` and `ct`.  The stored tolerance is multiplied by the sum of
squares of the nine entries of the upper-left 3×3 block, exactly as the
source spells it out. -/
def IntersectionCurve.transform_by (st : Matrix4 → Surface → Surface)
    (ct : Matrix4 → Curve → Curve) (c : IntersectionCurve) (trans : Matrix4) :
    IntersectionCurve :=
  { surface0 := st trans c.surface0
    surface1 := st trans c.surface1
    leader := ct trans c.leader
    tol := c.tol *
      (trans 0 0 * trans 0 0 + trans 0 1 * trans 0 1 + trans 0 2 * trans 0 2 +
       trans 1 0 * trans 1 0 + trans 1 1 * trans 1 1 + trans 1 2 * trans 1 2 +
       trans 2 0 * trans 2 0 + trans 2 1 * trans 2 1 + trans 2 2 * trans 2 2) }

/-! Spec-side formalization of the correction step (claim C1).  The spec
says: "form the 3×3 matrix whose columns are surface 0's normal at its
current parameter, surface 1's normal at its current parameter, and the
supplied direction vector; invert it (fail if singular); the new point is
this inverse applied to the vector of three scalar projections".  The
definitions below follow those words literally (no transpose), to be
compared with `double_projection` above, which transposes the column
matrix. -/

/-- Loop of the spec-literal solver: identical to `double_projection_loop`
except that the correction matrix is the matrix whose COLUMNS are
`n0, n1, normal`, exactly as the spec sentence reads. -/
def double_projection_spec_loop (surface0 surface1 : Surface) (normal : V3) :
    V3 → ℚ × ℚ → ℚ × ℚ → ℕ → Option (V3 × (ℚ × ℚ) × (ℚ × ℚ))
  | _, _, _, 0 => none
  | point, uv0, uv1, n + 1 =>
    match surface0.search_nearest_parameter point (some uv0) 10 with
    | none => none
    | some uv0' =>
      let pt0 := surface0.subs uv0'.1 uv0'.2
      match surface1.search_nearest_parameter point (some uv1) 10 with
      | none => none
      | some uv1' =>
        let pt1 := surface1.subs uv1'.1 uv1'.2
        if near point pt0 ∧ near point pt1 ∧ near pt0 pt1 then
          some (point, uv0', uv1')
        else
          let n0 := surface0.normal uv0'.1 uv0'.2
          let n1 := surface1.normal uv1'.1 uv1'.2
          let mat := Matrix3.from_cols n0 n1 normal
          match mat.invert with
          | none => none
          | some inv =>
            double_projection_spec_loop surface0 surface1 normal
              (inv.mulVec ⟨Vec3.dot pt0 n0, Vec3.dot pt1 n1, Vec3.dot point normal⟩)
              uv0' uv1' n

/-- Spec-literal solver (claim C1 as stated, with the column matrix). -/
def double_projection_spec (surface0 : Surface) (hint0 : Option (ℚ × ℚ))
    (surface1 : Surface) (hint1 : Option (ℚ × ℚ))
    (point : V3) (normal : V3) (trials : ℕ) :
    Option (V3 × (ℚ × ℚ) × (ℚ × ℚ)) :=
  match surface0.search_nearest_parameter point hint0 10 with
  | none => none
  | some uv0 =>
    match surface1.search_nearest_parameter point hint1 10 with
    | none => none
    | some uv1 => double_projection_spec_loop surface0 surface1 normal point uv0 uv1 trials

/-- The 3×3 matrix whose ROWS are the three given vectors (used by the
amended reading of claim C1). -/
def Matrix3.from_rows (a b c : V3) : Matrix3 :=
  ⟨⟨a.x, b.x, c.x⟩, ⟨a.y, b.y, c.y⟩, ⟨a.z, b.z, c.z⟩⟩

/-- Loop of the amended spec solver: the correction matrix is the matrix
whose ROWS are `n0, n1, normal` (equivalently, the transpose of the
spec's column matrix), built directly by `Matrix3.from_rows`. -/
def double_projection_rows_loop (surface0 surface1 : Surface) (normal : V3) :
    V3 → ℚ × ℚ → ℚ × ℚ → ℕ → Option (V3 × (ℚ × ℚ) × (ℚ × ℚ))
  | _, _, _, 0 => none
  | point, uv0, uv1, n + 1 =>
    match surface0.search_nearest_parameter point (some uv0) 10 with
    | none => none
    | some uv0' =>
      let pt0 := surface0.subs uv0'.1 uv0'.2
      match surface1.search_nearest_parameter point (some uv1) 10 with
      | none => none
      | some uv1' =>
        let pt1 := surface1.subs uv1'.1 uv1'.2
        if near point pt0 ∧ near point pt1 ∧ near pt0 pt1 then
          some (point, uv0', uv1')
        else
          let n0 := surface0.normal uv0'.1 uv0'.2
          let n1 := surface1.normal uv1'.1 uv1'.2
          let mat := Matrix3.from_rows n0 n1 normal
          match mat.invert with
          | none => none
          | some inv =>
            double_projection_rows_loop surface0 surface1 normal
              (inv.mulVec ⟨Vec3.dot pt0 n0, Vec3.dot pt1 n1, Vec3.dot point normal⟩)
              uv0' uv1' n

/-- Amended spec solver (claim C1 with "columns" corrected to "rows"). -/
def double_projection_rows (surface0 : Surface) (hint0 : Option (ℚ × ℚ))
    (surface1 : Surface) (hint1 : Option (ℚ × ℚ))
    (point : V3) (normal : V3) (trials : ℕ) :
    Option (V3 × (ℚ × ℚ) × (ℚ × ℚ)) :=
  match surface0.search_nearest_parameter point hint0 10 with
  | none => none
  | some uv0 =>
    match surface1.search_nearest_parameter point hint1 10 with
    | none => none
    | some uv1 => double_projection_rows_loop surface0 surface1 normal point uv0 uv1 trials

/-! Concrete capability instances.  The planes below are modelled from the
spec (the `Plane` surface and the `Line` leader of §8's concrete scenario
live elsewhere in the truck repository, not under `src/`): a plane's
nearest-parameter search is the exact orthogonal projection, its normal the
constant unit normal of its parametrization. -/

/-- Modelled from the spec: the plane `z = 0` parametrized by `(x, y)`
(surface 0 of the spec's concrete scenario). -/
def planeZ0 : Surface :=
  { search_nearest_parameter := fun p _ _ => some (p.x, p.y)
    subs := fun u v => ⟨u, v, 0⟩
    normal := fun _ _ => ⟨0, 0, 1⟩ }

/-- Modelled from the spec: the plane `x = 0` parametrized by `(y, z)`
(surface 1 of the spec's concrete scenario). -/
def planeX0 : Surface :=
  { search_nearest_parameter := fun p _ _ => some (p.y, p.z)
    subs := fun u v => ⟨0, u, v⟩
    normal := fun _ _ => ⟨1, 0, 0⟩ }

/-- Modelled from the spec: the line `t ↦ (0, t, 0)` (the leader of the
spec's concrete scenario); its nearest parameter to `p` is `p.y`. -/
def lineY : Curve :=
  { subs := fun t => ⟨0, t, 0⟩
    der := fun _ => ⟨0, 1, 0⟩
    parameter_range := (0, 1)
    search_nearest_parameter := fun p _ _ => some p.y }

/-- The entity of the spec's concrete scenario (§8): planes `z = 0` and
`x = 0` with the leader `t ↦ (0, t, 0)`. -/
def c8curve : IntersectionCurve :=
  { surface0 := planeZ0, surface1 := planeX0, leader := lineY, tol := TOLERANCE }

/-- The plane `z = 1` parametrized by `(x, y)` (a shifted copy of
`planeZ0`; used to force a correction step). -/
def planeZ1 : Surface :=
  { search_nearest_parameter := fun p _ _ => some (p.x, p.y)
    subs := fun u v => ⟨u, v, 1⟩
    normal := fun _ _ => ⟨0, 0, 1⟩ }

/-- The plane `x = 1` parametrized by `(y, z)` (a shifted copy of
`planeX0`; used to force a correction step). -/
def planeX1 : Surface :=
  { search_nearest_parameter := fun p _ _ => some (p.y, p.z)
    subs := fun u v => ⟨1, u, v⟩
    normal := fun _ _ => ⟨1, 0, 0⟩ }

/-- A degenerate entity: both surfaces are the plane `z = 0`, so the two
normals coincide and their cross product vanishes at every converged
triple. -/
def c2curve : IntersectionCurve :=
  { surface0 := planeZ0, surface1 := planeZ0, leader := lineY, tol := TOLERANCE }

/-- A surface whose nearest-parameter search never converges. -/
def badSurface : Surface :=
  { search_nearest_parameter := fun _ _ _ => none
    subs := fun _ _ => ⟨0, 0, 0⟩
    normal := fun _ _ => ⟨0, 0, 1⟩ }

/-- A leader whose nearest-parameter search never converges. -/
def badLeader : Curve :=
  { subs := fun t => ⟨0, t, 0⟩
    der := fun _ => ⟨0, 1, 0⟩
    parameter_range := (0, 1)
    search_nearest_parameter := fun _ _ _ => none }

/-- An entity whose solver always fails (both surfaces unreachable). -/
def badCurveEntity : IntersectionCurve :=
  { surface0 := badSurface, surface1 := badSurface, leader := lineY, tol := TOLERANCE }

/-- An entity whose leader search always fails. -/
def badLeaderEntity : IntersectionCurve :=
  { surface0 := planeZ0, surface1 := planeX0, leader := badLeader, tol := TOLERANCE }

/-- The cross product of the two surface normals at a pair of surface
parameters, over `ℝ` (the candidate tangent direction of `der` before
normalization). -/
noncomputable def crossDir (c : IntersectionCurve) (p0 p1 : ℚ × ℚ) : Vec3 ℝ :=
  Vec3.cross (c.surface0.normal p0.1 p0.2).toReal (c.surface1.normal p1.1 p1.2).toReal

/-- The normalized cross product of the two surface normals (the direction
`d` computed inside `der`). -/
noncomputable def unitDir (c : IntersectionCurve) (p0 p1 : ℚ × ℚ) : Vec3 ℝ :=
  (crossDir c p0 p1).normalize

/-! Helper lemmas: one unfolding lemma per branch of the solver loop (and of
its spec-side variants), so that concrete runs and inductions are plain
rewrite chains. -/

/-- Dot product after scaling the left argument. -/
theorem dot_smul_left (v w : Vec3 ℝ) (s : ℝ) :
    Vec3.dot (v.smul s) w = s * Vec3.dot v w := by
  simp only [Vec3.smul, Vec3.dot]
  ring

/-- Two successive scalings collapse to one. -/
theorem smul_smul_eq (v : Vec3 ℝ) (s r : ℝ) :
    (v.smul s).smul r = v.smul (s * r) := by
  simp only [Vec3.smul, mul_assoc]

/-- Every point is near itself. -/
theorem near_refl (p : V3) : near p p := by
  simp [near, dist2, Vec3.sub, Vec3.dot, TOLERANCE]

/-- Building a matrix from rows is the transpose of building it from
columns. -/
theorem from_rows_eq_transpose (a b c : V3) :
    Matrix3.from_rows a b c = (Matrix3.from_cols a b c).transpose := rfl

theorem loop_zero (s0 s1 : Surface) (d p : V3) (uv0 uv1 : ℚ × ℚ) :
    double_projection_loop s0 s1 d p uv0 uv1 0 = none := rfl

theorem loop_fail_snp0 (s0 s1 : Surface) (d p : V3) (uv0 uv1 : ℚ × ℚ) (n : ℕ)
    (h0 : s0.search_nearest_parameter p (some uv0) 10 = none) :
    double_projection_loop s0 s1 d p uv0 uv1 (n + 1) = none := by
  simp only [double_projection_loop, h0]

theorem loop_fail_snp1 (s0 s1 : Surface) (d p : V3) (uv0 uv1 uv0' : ℚ × ℚ) (n : ℕ)
    (h0 : s0.search_nearest_parameter p (some uv0) 10 = some uv0')
    (h1 : s1.search_nearest_parameter p (some uv1) 10 = none) :
    double_projection_loop s0 s1 d p uv0 uv1 (n + 1) = none := by
  simp only [double_projection_loop, h0, h1]

theorem loop_converged (s0 s1 : Surface) (d p : V3) (uv0 uv1 uv0' uv1' : ℚ × ℚ) (n : ℕ)
    (h0 : s0.search_nearest_parameter p (some uv0) 10 = some uv0')
    (h1 : s1.search_nearest_parameter p (some uv1) 10 = some uv1')
    (hc : near p (s0.subs uv0'.1 uv0'.2) ∧ near p (s1.subs uv1'.1 uv1'.2) ∧
      near (s0.subs uv0'.1 uv0'.2) (s1.subs uv1'.1 uv1'.2)) :
    double_projection_loop s0 s1 d p uv0 uv1 (n + 1) = some (p, uv0', uv1') := by
  simp only [double_projection_loop, h0, h1]
  rw [if_pos hc]

theorem loop_step (s0 s1 : Surface) (d p : V3) (uv0 uv1 uv0' uv1' : ℚ × ℚ) (n : ℕ)
    (inv : Matrix3)
    (h0 : s0.search_nearest_parameter p (some uv0) 10 = some uv0')
    (h1 : s1.search_nearest_parameter p (some uv1) 10 = some uv1')
    (hc : ¬ (near p (s0.subs uv0'.1 uv0'.2) ∧ near p (s1.subs uv1'.1 uv1'.2) ∧
      near (s0.subs uv0'.1 uv0'.2) (s1.subs uv1'.1 uv1'.2)))
    (hi : ((Matrix3.from_cols (s0.normal uv0'.1 uv0'.2) (s1.normal uv1'.1 uv1'.2) d).transpose).invert
      = some inv) :
    double_projection_loop s0 s1 d p uv0 uv1 (n + 1) =
      double_projection_loop s0 s1 d
        (inv.mulVec ⟨Vec3.dot (s0.subs uv0'.1 uv0'.2) (s0.normal uv0'.1 uv0'.2),
          Vec3.dot (s1.subs uv1'.1 uv1'.2) (s1.normal uv1'.1 uv1'.2), Vec3.dot p d⟩)
        uv0' uv1' n := by
  simp only [double_projection_loop, h0, h1]
  rw [if_neg hc]
  simp only [hi]

theorem loop_fail_singular (s0 s1 : Surface) (d p : V3) (uv0 uv1 uv0' uv1' : ℚ × ℚ) (n : ℕ)
    (h0 : s0.search_nearest_parameter p (some uv0) 10 = some uv0')
    (h1 : s1.search_nearest_parameter p (some uv1) 10 = some uv1')
    (hc : ¬ (near p (s0.subs uv0'.1 uv0'.2) ∧ near p (s1.subs uv1'.1 uv1'.2) ∧
      near (s0.subs uv0'.1 uv0'.2) (s1.subs uv1'.1 uv1'.2)))
    (hi : ((Matrix3.from_cols (s0.normal uv0'.1 uv0'.2) (s1.normal uv1'.1 uv1'.2) d).transpose).invert
      = none) :
    double_projection_loop s0 s1 d p uv0 uv1 (n + 1) = none := by
  simp only [double_projection_loop, h0, h1]
  rw [if_neg hc]
  simp only [hi]

theorem dp_eq_loop (s0 : Surface) (h0 : Option (ℚ × ℚ)) (s1 : Surface) (h1 : Option (ℚ × ℚ))
    (p d : V3) (n : ℕ) (uv0 uv1 : ℚ × ℚ)
    (e0 : s0.search_nearest_parameter p h0 10 = some uv0)
    (e1 : s1.search_nearest_parameter p h1 10 = some uv1) :
    double_projection s0 h0 s1 h1 p d n = double_projection_loop s0 s1 d p uv0 uv1 n := by
  simp only [double_projection, e0, e1]

theorem spec_loop_zero (s0 s1 : Surface) (d p : V3) (uv0 uv1 : ℚ × ℚ) :
    double_projection_spec_loop s0 s1 d p uv0 uv1 0 = none := rfl

theorem spec_loop_step (s0 s1 : Surface) (d p : V3) (uv0 uv1 uv0' uv1' : ℚ × ℚ) (n : ℕ)
    (inv : Matrix3)
    (h0 : s0.search_nearest_parameter p (some uv0) 10 = some uv0')
    (h1 : s1.search_nearest_parameter p (some uv1) 10 = some uv1')
    (hc : ¬ (near p (s0.subs uv0'.1 uv0'.2) ∧ near p (s1.subs uv1'.1 uv1'.2) ∧
      near (s0.subs uv0'.1 uv0'.2) (s1.subs uv1'.1 uv1'.2)))
    (hi : (Matrix3.from_cols (s0.normal uv0'.1 uv0'.2) (s1.normal uv1'.1 uv1'.2) d).invert
      = some inv) :
    double_projection_spec_loop s0 s1 d p uv0 uv1 (n + 1) =
      double_projection_spec_loop s0 s1 d
        (inv.mulVec ⟨Vec3.dot (s0.subs uv0'.1 uv0'.2) (s0.normal uv0'.1 uv0'.2),
          Vec3.dot (s1.subs uv1'.1 uv1'.2) (s1.normal uv1'.1 uv1'.2), Vec3.dot p d⟩)
        uv0' uv1' n := by
  simp only [double_projection_spec_loop, h0, h1]
  rw [if_neg hc]
  simp only [hi]

theorem spec_dp_eq_loop (s0 : Surface) (h0 : Option (ℚ × ℚ)) (s1 : Surface) (h1 : Option (ℚ × ℚ))
    (p d : V3) (n : ℕ) (uv0 uv1 : ℚ × ℚ)
    (e0 : s0.search_nearest_parameter p h0 10 = some uv0)
    (e1 : s1.search_nearest_parameter p h1 10 = some uv1) :
    double_projection_spec s0 h0 s1 h1 p d n = double_projection_spec_loop s0 s1 d p uv0 uv1 n := by
  simp only [double_projection_spec, e0, e1]

theorem rows_loop_zero (s0 s1 : Surface) (d p : V3) (uv0 uv1 : ℚ × ℚ) :
    double_projection_rows_loop s0 s1 d p uv0 uv1 0 = none := rfl

theorem rows_loop_fail_snp0 (s0 s1 : Surface) (d p : V3) (uv0 uv1 : ℚ × ℚ) (n : ℕ)
    (h0 : s0.search_nearest_parameter p (some uv0) 10 = none) :
    double_projection_rows_loop s0 s1 d p uv0 uv1 (n + 1) = none := by
  simp only [double_projection_rows_loop, h0]

theorem rows_loop_fail_snp1 (s0 s1 : Surface) (d p : V3) (uv0 uv1 uv0' : ℚ × ℚ) (n : ℕ)
    (h0 : s0.search_nearest_parameter p (some uv0) 10 = some uv0')
    (h1 : s1.search_nearest_parameter p (some uv1) 10 = none) :
    double_projection_rows_loop s0 s1 d p uv0 uv1 (n + 1) = none := by
  simp only [double_projection_rows_loop, h0, h1]

theorem rows_loop_converged (s0 s1 : Surface) (d p : V3) (uv0 uv1 uv0' uv1' : ℚ × ℚ) (n : ℕ)
    (h0 : s0.search_nearest_parameter p (some uv0) 10 = some uv0')
    (h1 : s1.search_nearest_parameter p (some uv1) 10 = some uv1')
    (hc : near p (s0.subs uv0'.1 uv0'.2) ∧ near p (s1.subs uv1'.1 uv1'.2) ∧
      near (s0.subs uv0'.1 uv0'.2) (s1.subs uv1'.1 uv1'.2)) :
    double_projection_rows_loop s0 s1 d p uv0 uv1 (n + 1) = some (p, uv0', uv1') := by
  simp only [double_projection_rows_loop, h0, h1]
  rw [if_pos hc]

theorem rows_loop_step (s0 s1 : Surface) (d p : V3) (uv0 uv1 uv0' uv1' : ℚ × ℚ) (n : ℕ)
    (inv : Matrix3)
    (h0 : s0.search_nearest_parameter p (some uv0) 10 = some uv0')
    (h1 : s1.search_nearest_parameter p (some uv1) 10 = some uv1')
    (hc : ¬ (near p (s0.subs uv0'.1 uv0'.2) ∧ near p (s1.subs uv1'.1 uv1'.2) ∧
      near (s0.subs uv0'.1 uv0'.2) (s1.subs uv1'.1 uv1'.2)))
    (hi : (Matrix3.from_rows (s0.normal uv0'.1 uv0'.2) (s1.normal uv1'.1 uv1'.2) d).invert
      = some inv) :
    double_projection_rows_loop s0 s1 d p uv0 uv1 (n + 1) =
      double_projection_rows_loop s0 s1 d
        (inv.mulVec ⟨Vec3.dot (s0.subs uv0'.1 uv0'.2) (s0.normal uv0'.1 uv0'.2),
          Vec3.dot (s1.subs uv1'.1 uv1'.2) (s1.normal uv1'.1 uv1'.2), Vec3.dot p d⟩)
        uv0' uv1' n := by
  simp only [double_projection_rows_loop, h0, h1]
  rw [if_neg hc]
  simp only [hi]

theorem rows_loop_fail_singular (s0 s1 : Surface) (d p : V3) (uv0 uv1 uv0' uv1' : ℚ × ℚ) (n : ℕ)
    (h0 : s0.search_nearest_parameter p (some uv0) 10 = some uv0')
    (h1 : s1.search_nearest_parameter p (some uv1) 10 = some uv1')
    (hc : ¬ (near p (s0.subs uv0'.1 uv0'.2) ∧ near p (s1.subs uv1'.1 uv1'.2) ∧
      near (s0.subs uv0'.1 uv0'.2) (s1.subs uv1'.1 uv1'.2)))
    (hi : (Matrix3.from_rows (s0.normal uv0'.1 uv0'.2) (s1.normal uv1'.1 uv1'.2) d).invert
      = none) :
    double_projection_rows_loop s0 s1 d p uv0 uv1 (n + 1) = none := by
  simp only [double_projection_rows_loop, h0, h1]
  rw [if_neg hc]
  simp only [hi]

/-- The rows-matrix loop agrees with the source loop on all inputs: the two
definitions differ only in how the correction matrix is written
(`from_rows n0 n1 d` versus `from_cols(n0, n1, d).transpose()`), and those
coincide. -/
theorem rows_loop_eq_loop (surface0 surface1 : Surface) (d : V3) :
    ∀ (n : ℕ) (p : V3) (uv0 uv1 : ℚ × ℚ),
    double_projection_rows_loop surface0 surface1 d p uv0 uv1 n =
      double_projection_loop surface0 surface1 d p uv0 uv1 n := by
  intro n
  induction n with
  | zero => intro p uv0 uv1; rfl
  | succ m ih =>
    intro p uv0 uv1
    cases h0 : surface0.search_nearest_parameter p (some uv0) 10 with
    | none => rw [rows_loop_fail_snp0 _ _ _ _ _ _ _ h0, loop_fail_snp0 _ _ _ _ _ _ _ h0]
    | some uv0' =>
      cases h1 : surface1.search_nearest_parameter p (some uv1) 10 with
      | none =>
        rw [rows_loop_fail_snp1 _ _ _ _ _ _ _ _ h0 h1, loop_fail_snp1 _ _ _ _ _ _ _ _ h0 h1]
      | some uv1' =>
        by_cases hc : near p (surface0.subs uv0'.1 uv0'.2) ∧
            near p (surface1.subs uv1'.1 uv1'.2) ∧
            near (surface0.subs uv0'.1 uv0'.2) (surface1.subs uv1'.1 uv1'.2)
        · rw [rows_loop_converged _ _ _ _ _ _ _ _ _ h0 h1 hc,
            loop_converged _ _ _ _ _ _ _ _ _ h0 h1 hc]
        · cases hi : (Matrix3.from_rows (surface0.normal uv0'.1 uv0'.2)
              (surface1.normal uv1'.1 uv1'.2) d).invert with
          | none =>
            rw [rows_loop_fail_singular _ _ _ _ _ _ _ _ _ h0 h1 hc hi,
              loop_fail_singular _ _ _ _ _ _ _ _ _ h0 h1 hc
                ((from_rows_eq_transpose _ _ _) ▸ hi)]
          | some inv =>
            rw [rows_loop_step _ _ _ _ _ _ _ _ _ _ h0 h1 hc hi,
              loop_step _ _ _ _ _ _ _ _ _ _ h0 h1 hc ((from_rows_eq_transpose _ _ _) ▸ hi)]
            exact ih _ _ _

/-- At the C1 counterexample input, the source solver converges to
`(1, 0, 1)` after one correction step. -/
theorem c1_code_run :
    double_projection planeZ1 none planeX1 none ⟨0, 0, 0⟩ ⟨0, 1, 0⟩ 2 =
      some (⟨1, 0, 1⟩, (1, 0), (0, 1)) := by
  rw [dp_eq_loop planeZ1 none planeX1 none ⟨0, 0, 0⟩ ⟨0, 1, 0⟩ 2 (0, 0) (0, 0) rfl rfl]
  rw [loop_step planeZ1 planeX1 ⟨0, 1, 0⟩ ⟨0, 0, 0⟩ (0, 0) (0, 0) (0, 0) (0, 0) 1
      ⟨⟨0, 0, 1⟩, ⟨1, 0, 0⟩, ⟨0, 1, 0⟩⟩ rfl rfl
      (by norm_num [near, dist2, Vec3.sub, Vec3.dot, TOLERANCE, planeZ1, planeX1])
      (by norm_num [Matrix3.invert, Matrix3.determinant, Matrix3.from_cols, Matrix3.transpose,
        Vec3.cross, Vec3.dot, Vec3.smul, planeZ1, planeX1])]
  have hpt : (Matrix3.mulVec ⟨⟨0, 0, 1⟩, ⟨1, 0, 0⟩, ⟨0, 1, 0⟩⟩
      ⟨Vec3.dot (planeZ1.subs ((0 : ℚ), (0 : ℚ)).1 ((0 : ℚ), (0 : ℚ)).2)
          (planeZ1.normal ((0 : ℚ), (0 : ℚ)).1 ((0 : ℚ), (0 : ℚ)).2),
        Vec3.dot (planeX1.subs ((0 : ℚ), (0 : ℚ)).1 ((0 : ℚ), (0 : ℚ)).2)
          (planeX1.normal ((0 : ℚ), (0 : ℚ)).1 ((0 : ℚ), (0 : ℚ)).2),
        Vec3.dot ⟨0, 0, 0⟩ ⟨0, 1, 0⟩⟩) = (⟨1, 0, 1⟩ : V3) := by
    norm_num [Matrix3.mulVec, Vec3.dot, Vec3.smul, Vec3.add, planeZ1, planeX1]
  rw [hpt]
  rw [loop_converged planeZ1 planeX1 ⟨0, 1, 0⟩ ⟨1, 0, 1⟩ (0, 0) (0, 0) (1, 0) (0, 1) 0 rfl rfl
      (by norm_num [near, dist2, Vec3.sub, Vec3.dot, TOLERANCE, planeZ1, planeX1])]

/-- At the C1 counterexample input, the solver literally following the
claim's words (column matrix, no transpose) exhausts its budget of 2 and
fails. -/
theorem c1_spec_run :
    double_projection_spec planeZ1 none planeX1 none ⟨0, 0, 0⟩ ⟨0, 1, 0⟩ 2 = none := by
  rw [spec_dp_eq_loop planeZ1 none planeX1 none ⟨0, 0, 0⟩ ⟨0, 1, 0⟩ 2 (0, 0) (0, 0) rfl rfl]
  rw [spec_loop_step planeZ1 planeX1 ⟨0, 1, 0⟩ ⟨0, 0, 0⟩ (0, 0) (0, 0) (0, 0) (0, 0) 1
      ⟨⟨0, 1, 0⟩, ⟨0, 0, 1⟩, ⟨1, 0, 0⟩⟩ rfl rfl
      (by norm_num [near, dist2, Vec3.sub, Vec3.dot, TOLERANCE, planeZ1, planeX1])
      (by norm_num [Matrix3.invert, Matrix3.determinant, Matrix3.from_cols, Matrix3.transpose,
        Vec3.cross, Vec3.dot, Vec3.smul, planeZ1, planeX1])]
  have hpt : (Matrix3.mulVec ⟨⟨0, 1, 0⟩, ⟨0, 0, 1⟩, ⟨1, 0, 0⟩⟩
      ⟨Vec3.dot (planeZ1.subs ((0 : ℚ), (0 : ℚ)).1 ((0 : ℚ), (0 : ℚ)).2)
          (planeZ1.normal ((0 : ℚ), (0 : ℚ)).1 ((0 : ℚ), (0 : ℚ)).2),
        Vec3.dot (planeX1.subs ((0 : ℚ), (0 : ℚ)).1 ((0 : ℚ), (0 : ℚ)).2)
          (planeX1.normal ((0 : ℚ), (0 : ℚ)).1 ((0 : ℚ), (0 : ℚ)).2),
        Vec3.dot ⟨0, 0, 0⟩ ⟨0, 1, 0⟩⟩) = (⟨0, 1, 1⟩ : V3) := by
    norm_num [Matrix3.mulVec, Vec3.dot, Vec3.smul, Vec3.add, planeZ1, planeX1]
  rw [hpt]
  rw [spec_loop_step planeZ1 planeX1 ⟨0, 1, 0⟩ ⟨0, 1, 1⟩ (0, 0) (0, 0) (0, 1) (1, 1) 0
      ⟨⟨0, 1, 0⟩, ⟨0, 0, 1⟩, ⟨1, 0, 0⟩⟩ rfl rfl
      (by norm_num [near, dist2, Vec3.sub, Vec3.dot, TOLERANCE, planeZ1, planeX1])
      (by norm_num [Matrix3.invert, Matrix3.determinant, Matrix3.from_cols, Matrix3.transpose,
        Vec3.cross, Vec3.dot, Vec3.smul, planeZ1, planeX1])]
  exact spec_loop_zero _ _ _ _ _ _

/-- C1: the claim as stated is false on the code: the correction matrix of
`double_projection` is `Matrix3::from_cols(n0, n1, normal).transpose()` —
the matrix whose ROWS are `n0, n1, normal` — not the matrix whose columns
they are.  At the concrete input below (planes `z = 1` and `x = 1`,
starting point the origin, direction `(0, 1, 0)`, budget 2), the solver
literally following the claim's words (`double_projection_spec`) fails
while the source solver converges to `(1, 0, 1)`; so the claimed next
point estimate differs from the code's. -/
theorem C1_counterexample :
    double_projection planeZ1 none planeX1 none ⟨0, 0, 0⟩ ⟨0, 1, 0⟩ 2 =
      some (⟨1, 0, 1⟩, (1, 0), (0, 1))
    ∧ double_projection_spec planeZ1 none planeX1 none ⟨0, 0, 0⟩ ⟨0, 1, 0⟩ 2 = none
    ∧ double_projection_spec planeZ1 none planeX1 none ⟨0, 0, 0⟩ ⟨0, 1, 0⟩ 2 ≠
        double_projection planeZ1 none planeX1 none ⟨0, 0, 0⟩ ⟨0, 1, 0⟩ 2 := by
  refine ⟨c1_code_run, c1_spec_run, ?_⟩
  rw [c1_code_run, c1_spec_run]
  simp

/-- C1 (amended): each solver iteration re-runs nearest-parameter search on
both surfaces and evaluates `p0` and `p1`; if the current point is near
`p0`, near `p1`, and `p0` is near `p1`, it returns the current point with
both parameter pairs; otherwise the next point is the inverse of the 3×3
matrix whose ROWS are `n0`, `n1`, and the direction (the transpose of the
claim's column matrix) applied to `(p0·n0, p1·n1, point·direction)`, and
the solver fails if that matrix is singular: the solver written from these
amended words (`double_projection_rows`) coincides with the source solver
on every input. -/
theorem C1_amended_refinement (surface0 : Surface) (hint0 : Option (ℚ × ℚ))
    (surface1 : Surface) (hint1 : Option (ℚ × ℚ))
    (point normal : V3) (trials : ℕ) :
    double_projection_rows surface0 hint0 surface1 hint1 point normal trials =
      double_projection surface0 hint0 surface1 hint1 point normal trials := by
  simp only [double_projection_rows, double_projection]
  cases surface0.search_nearest_parameter point hint0 10 with
  | none => rfl
  | some uv0 =>
    cases surface1.search_nearest_parameter point hint1 10 with
    | none => rfl
    | some uv1 => exact rows_loop_eq_loop surface0 surface1 normal trials point uv0 uv1

/-- On the spec's concrete scenario the solver converges at the first
proximity check, with the leader's point unchanged (zero correction
steps), for every parameter `t`. -/
theorem c8_search_triple (t : ℚ) :
    c8curve.search_triple t = some (⟨0, t, 0⟩, (0, t), (t, 0)) := by
  show double_projection_loop planeZ0 planeX0 ⟨0, 1, 0⟩ ⟨0, t, 0⟩ (0, t) (t, 0) (99 + 1) =
    some (⟨0, t, 0⟩, (0, t), (t, 0))
  exact loop_converged _ _ _ _ _ _ _ _ _ rfl rfl ⟨near_refl _, near_refl _, near_refl _⟩

/-- C8: on the concrete instance where surface 0 is the plane `z = 0`
parametrized by `(x, y)`, surface 1 is the plane `x = 0` parametrized by
`(y, z)`, and the leader is `t ↦ (0, t, 0)`: for every `t` the solver
converges immediately to the leader's own point, point evaluation returns
exactly `(0, t, 0)`, and derivative evaluation returns exactly
`(0, 1, 0)`. -/
theorem C8_concrete_scenario (t : ℚ) :
    c8curve.search_triple t = some (⟨0, t, 0⟩, (0, t), (t, 0))
    ∧ c8curve.subs t = PanicOr.value ⟨0, t, 0⟩
    ∧ c8curve.der t = PanicOr.value ⟨0, 1, 0⟩ := by
  refine ⟨c8_search_triple t, ?_, ?_⟩
  · simp only [IntersectionCurve.subs, c8_search_triple t]
  · simp only [IntersectionCurve.der, c8_search_triple t]
    norm_num [c8curve, planeZ0, planeX0, lineY, Vec3.toReal, Vec3.cross, Vec3.normalize,
      Vec3.dot, Vec3.smul, Real.sqrt_one]

/-- On the degenerate instance whose two surfaces are both the plane
`z = 0`, the solver still converges immediately for every `t`. -/
theorem c2_search_triple (t : ℚ) :
    c2curve.search_triple t = some (⟨0, t, 0⟩, (0, t), (0, t)) := by
  show double_projection_loop planeZ0 planeZ0 ⟨0, 1, 0⟩ ⟨0, t, 0⟩ (0, t) (0, t) (99 + 1) =
    some (⟨0, t, 0⟩, (0, t), (0, t))
  exact loop_converged _ _ _ _ _ _ _ _ _ rfl rfl ⟨near_refl _, near_refl _, near_refl _⟩

/-- C2: the claim as stated is false: on the entity whose two surfaces are
both the plane `z = 0` (leader `t ↦ (0, t, 0)`), the solver converges at
`t = 0`, yet the returned derivative is the zero vector (the normals'
cross product vanishes), so its dot product with the leader derivative is
`0`, not `leaderDer · leaderDer = 1`. -/
theorem C2_counterexample :
    c2curve.search_triple 0 = some (⟨0, 0, 0⟩, (0, 0), (0, 0))
    ∧ c2curve.der 0 = PanicOr.value ⟨0, 0, 0⟩
    ∧ ¬ (Vec3.dot (⟨0, 0, 0⟩ : Vec3 ℝ) (c2curve.leader.der 0).toReal =
        Vec3.dot (c2curve.leader.der 0).toReal (c2curve.leader.der 0).toReal) := by
  refine ⟨c2_search_triple 0, ?_, ?_⟩
  · simp only [IntersectionCurve.der, c2_search_triple 0]
    norm_num [c2curve, planeZ0, lineY, Vec3.toReal, Vec3.cross, Vec3.normalize,
      Vec3.dot, Vec3.smul]
  · norm_num [c2curve, lineY, Vec3.toReal, Vec3.dot]

/-- C2 (amended): whenever the solver converges at `t` AND the normalized
cross product of the surface normals has nonzero dot product with the
leader's derivative, the returned derivative is that normalized cross
product scaled by `(n·n)/(d·n)`; consequently its dot product with the
leader derivative equals `n·n` and it is parallel to the cross product of
the two surface normals. -/
theorem C2_amended_derivative (c : IntersectionCurve) (t : ℚ) (p : V3) (p0 p1 : ℚ × ℚ)
    (hst : c.search_triple t = some (p, p0, p1))
    (hdn : Vec3.dot (unitDir c p0 p1) (c.leader.der t).toReal ≠ 0) :
    c.der t = PanicOr.value ((unitDir c p0 p1).smul
        (Vec3.dot (c.leader.der t).toReal (c.leader.der t).toReal /
          Vec3.dot (unitDir c p0 p1) (c.leader.der t).toReal))
    ∧ (∀ r, c.der t = PanicOr.value r →
        Vec3.dot r (c.leader.der t).toReal =
          Vec3.dot (c.leader.der t).toReal (c.leader.der t).toReal
        ∧ ∃ k : ℝ, r = (crossDir c p0 p1).smul k) := by
  have h1 : c.der t = PanicOr.value ((unitDir c p0 p1).smul
      (Vec3.dot (c.leader.der t).toReal (c.leader.der t).toReal /
        Vec3.dot (unitDir c p0 p1) (c.leader.der t).toReal)) := by
    simp only [IntersectionCurve.der, hst]
    rfl
  refine ⟨h1, fun r hr => ?_⟩
  rw [h1] at hr
  have hreq : r = (unitDir c p0 p1).smul
      (Vec3.dot (c.leader.der t).toReal (c.leader.der t).toReal /
        Vec3.dot (unitDir c p0 p1) (c.leader.der t).toReal) := by
    cases hr
    rfl
  subst hreq
  constructor
  · rw [dot_smul_left]
    exact div_mul_cancel₀ _ hdn
  · refine ⟨(1 / Real.sqrt (Vec3.dot (crossDir c p0 p1) (crossDir c p0 p1))) *
      (Vec3.dot (c.leader.der t).toReal (c.leader.der t).toReal /
        Vec3.dot (unitDir c p0 p1) (c.leader.der t).toReal), ?_⟩
    rw [← smul_smul_eq]
    rfl

/-- Witness for `C2_amended_derivative` at the concrete scenario entity and
`t = 0`: the solver converges, the transversality hypothesis holds, and
the derivative equals the asserted scaled normalized cross product. -/
theorem C2_amended_witness :
    c8curve.search_triple 0 = some (⟨0, 0, 0⟩, (0, 0), (0, 0))
    ∧ Vec3.dot (unitDir c8curve (0, 0) (0, 0)) (c8curve.leader.der 0).toReal ≠ 0
    ∧ c8curve.der 0 = PanicOr.value ((unitDir c8curve (0, 0) (0, 0)).smul
        (Vec3.dot (c8curve.leader.der 0).toReal (c8curve.leader.der 0).toReal /
          Vec3.dot (unitDir c8curve (0, 0) (0, 0)) (c8curve.leader.der 0).toReal)) := by
  have h1 : c8curve.search_triple 0 = some (⟨0, 0, 0⟩, (0, 0), (0, 0)) := c8_search_triple 0
  have h2 : Vec3.dot (unitDir c8curve (0, 0) (0, 0)) (c8curve.leader.der 0).toReal ≠ 0 := by
    norm_num [unitDir, crossDir, c8curve, planeZ0, planeX0, lineY, Vec3.toReal,
      Vec3.cross, Vec3.normalize, Vec3.dot, Vec3.smul, Real.sqrt_one]
  exact ⟨h1, h2, (C2_amended_derivative c8curve 0 ⟨0, 0, 0⟩ (0, 0) (0, 0) h1 h2).1⟩

/-- C3: for every entity and parameter, point evaluation is the solver
invoked with the leader's point at `t` as initial point, the leader's
derivative at `t` as direction, no hints for either surface, and outer
budget exactly 100; it returns the solver's point on success and is a hard
panic (`unwrap`), not a recoverable error value, when the solver fails. -/
theorem C3_point_evaluation (c : IntersectionCurve) (t : ℚ) :
    c.search_triple t =
      double_projection c.surface0 none c.surface1 none (c.leader.subs t) (c.leader.der t) 100
    ∧ (∀ p q0 q1, c.search_triple t = some (p, q0, q1) → c.subs t = PanicOr.value p)
    ∧ (c.search_triple t = none → c.subs t = PanicOr.panics) := by
  refine ⟨rfl, fun p q0 q1 h => ?_, fun h => ?_⟩
  · simp only [IntersectionCurve.subs, h]
  · simp only [IntersectionCurve.subs, h]

/-- Witness for `C3_point_evaluation`: on the concrete scenario the solver
succeeds and `subs` returns its point; on an entity whose surfaces are
unreachable the solver fails and `subs` panics. -/
theorem C3_witness :
    c8curve.search_triple 0 = some (⟨0, 0, 0⟩, (0, 0), (0, 0))
    ∧ c8curve.subs 0 = PanicOr.value ⟨0, 0, 0⟩
    ∧ badCurveEntity.search_triple 0 = none
    ∧ badCurveEntity.subs 0 = PanicOr.panics := by
  have h1 : c8curve.search_triple 0 = some (⟨0, 0, 0⟩, (0, 0), (0, 0)) := c8_search_triple 0
  have h2 : badCurveEntity.search_triple 0 = none := rfl
  exact ⟨h1, (C3_point_evaluation c8curve 0).2.1 _ _ _ h1, h2,
    (C3_point_evaluation badCurveEntity 0).2.2 h2⟩

/-- Success of the bounded loop is stable under enlarging the budget: the
loop never runs extra iterations after converging. -/
theorem loop_mono (s0 s1 : Surface) (d : V3) :
    ∀ (n : ℕ) (p : V3) (uv0 uv1 : ℚ × ℚ) (r : V3 × (ℚ × ℚ) × (ℚ × ℚ)),
      double_projection_loop s0 s1 d p uv0 uv1 n = some r →
      double_projection_loop s0 s1 d p uv0 uv1 (n + 1) = some r := by
  intro n
  induction n with
  | zero =>
    intro p uv0 uv1 r h
    rw [loop_zero] at h
    exact absurd h (by simp)
  | succ m ih =>
    intro p uv0 uv1 r h
    cases e0 : s0.search_nearest_parameter p (some uv0) 10 with
    | none => rw [loop_fail_snp0 _ _ _ _ _ _ _ e0] at h; exact absurd h (by simp)
    | some uv0' =>
      cases e1 : s1.search_nearest_parameter p (some uv1) 10 with
      | none => rw [loop_fail_snp1 _ _ _ _ _ _ _ _ e0 e1] at h; exact absurd h (by simp)
      | some uv1' =>
        by_cases hc : near p (s0.subs uv0'.1 uv0'.2) ∧ near p (s1.subs uv1'.1 uv1'.2) ∧
            near (s0.subs uv0'.1 uv0'.2) (s1.subs uv1'.1 uv1'.2)
        · rw [loop_converged _ _ _ _ _ _ _ _ _ e0 e1 hc] at h
          rw [loop_converged _ _ _ _ _ _ _ _ (m + 1) e0 e1 hc]
          exact h
        · cases hi : ((Matrix3.from_cols (s0.normal uv0'.1 uv0'.2)
              (s1.normal uv1'.1 uv1'.2) d).transpose).invert with
          | none =>
            rw [loop_fail_singular _ _ _ _ _ _ _ _ _ e0 e1 hc hi] at h
            exact absurd h (by simp)
          | some inv =>
            rw [loop_step _ _ _ _ _ _ _ _ m _ e0 e1 hc hi] at h
            rw [loop_step _ _ _ _ _ _ _ _ (m + 1) _ e0 e1 hc hi]
            exact ih _ _ _ _ h

/-- C4: the solver is bounded: it fails immediately (with inner budget
exactly 10) if either initial nearest-parameter search fails; the loop
returns `none` when the outer budget is exhausted; and a converged result
is stable under a larger budget — the loop never iterates past success,
and, being structurally recursive on the budget, never loops
indefinitely. -/
theorem C4_bounded_termination :
    (∀ (s0 : Surface) (h0 : Option (ℚ × ℚ)) (s1 : Surface) (h1 : Option (ℚ × ℚ))
      (p d : V3) (n : ℕ), s0.search_nearest_parameter p h0 10 = none →
        double_projection s0 h0 s1 h1 p d n = none)
    ∧ (∀ (s0 : Surface) (h0 : Option (ℚ × ℚ)) (s1 : Surface) (h1 : Option (ℚ × ℚ))
      (p d : V3) (n : ℕ), s1.search_nearest_parameter p h1 10 = none →
        double_projection s0 h0 s1 h1 p d n = none)
    ∧ (∀ (s0 s1 : Surface) (d p : V3) (uv0 uv1 : ℚ × ℚ),
        double_projection_loop s0 s1 d p uv0 uv1 0 = none)
    ∧ (∀ (s0 s1 : Surface) (d p : V3) (uv0 uv1 : ℚ × ℚ) (n : ℕ)
        (r : V3 × (ℚ × ℚ) × (ℚ × ℚ)),
        double_projection_loop s0 s1 d p uv0 uv1 n = some r →
        double_projection_loop s0 s1 d p uv0 uv1 (n + 1) = some r) := by
  refine ⟨fun s0 h0 s1 h1 p d n h => ?_, fun s0 h0 s1 h1 p d n h => ?_,
    fun s0 s1 d p uv0 uv1 => loop_zero s0 s1 d p uv0 uv1,
    fun s0 s1 d p uv0 uv1 n r h => loop_mono s0 s1 d n p uv0 uv1 r h⟩
  · simp only [double_projection, h]
  · cases e0 : s0.search_nearest_parameter p h0 10 with
    | none => simp only [double_projection, e0]
    | some uv0 => simp only [double_projection, e0, h]

/-- Witness for `C4_bounded_termination`: concrete instances of the
immediate failure, the exhausted budget, and the budget-stability of a
converged run. -/
theorem C4_witness :
    badSurface.search_nearest_parameter ⟨0, 0, 0⟩ none 10 = none
    ∧ double_projection badSurface none planeZ0 none ⟨0, 0, 0⟩ ⟨0, 1, 0⟩ 5 = none
    ∧ double_projection_loop planeZ0 planeX0 ⟨0, 1, 0⟩ ⟨0, 0, 0⟩ (0, 0) (0, 0) 0 = none
    ∧ double_projection_loop planeZ0 planeX0 ⟨0, 1, 0⟩ ⟨0, 0, 0⟩ (0, 0) (0, 0) 1 =
        some (⟨0, 0, 0⟩, (0, 0), (0, 0))
    ∧ double_projection_loop planeZ0 planeX0 ⟨0, 1, 0⟩ ⟨0, 0, 0⟩ (0, 0) (0, 0) 2 =
        some (⟨0, 0, 0⟩, (0, 0), (0, 0)) := by
  have hb : badSurface.search_nearest_parameter ⟨0, 0, 0⟩ none 10 = none := rfl
  have hl : double_projection_loop planeZ0 planeX0 ⟨0, 1, 0⟩ ⟨0, 0, 0⟩ (0, 0) (0, 0) 1 =
      some (⟨0, 0, 0⟩, (0, 0), (0, 0)) :=
    loop_converged _ _ _ _ _ _ _ _ 0 rfl rfl ⟨near_refl _, near_refl _, near_refl _⟩
  exact ⟨hb, C4_bounded_termination.1 badSurface none planeZ0 none ⟨0, 0, 0⟩ ⟨0, 1, 0⟩ 5 hb,
    C4_bounded_termination.2.2.1 planeZ0 planeX0 ⟨0, 1, 0⟩ ⟨0, 0, 0⟩ (0, 0) (0, 0), hl,
    C4_bounded_termination.2.2.2 planeZ0 planeX0 ⟨0, 1, 0⟩ ⟨0, 0, 0⟩ (0, 0) (0, 0) 1 _ hl⟩

/-- C5: the affine transform applies the one transform to surface 0,
surface 1, and the leader, and multiplies the stored tolerance by the sum
of squares of the nine entries of the upper-left 3×3 linear block; the
entity has no further field. -/
theorem C5_transform_by (st : Matrix4 → Surface → Surface) (ct : Matrix4 → Curve → Curve)
    (c : IntersectionCurve) (trans : Matrix4) :
    (c.transform_by st ct trans).surface0 = st trans c.surface0
    ∧ (c.transform_by st ct trans).surface1 = st trans c.surface1
    ∧ (c.transform_by st ct trans).leader = ct trans c.leader
    ∧ (c.transform_by st ct trans).tol =
        c.tol * ∑ i : Fin 3, ∑ j : Fin 3, (trans i.castSucc j.castSucc) ^ 2 := by
  refine ⟨rfl, rfl, rfl, ?_⟩
  simp only [IntersectionCurve.transform_by, Fin.sum_univ_three,
    show ((0 : Fin 3).castSucc = (0 : Fin 4)) from rfl,
    show ((1 : Fin 3).castSucc = (1 : Fin 4)) from rfl,
    show ((2 : Fin 3).castSucc = (2 : Fin 4)) from rfl]
  ring

/-- C6: when the leader search yields a candidate `t` and the entity's
exact point at `t` exists (the solver converges there), parameter search
accepts `t` exactly when that exact point is near the query point and
reports a recoverable not-found otherwise. -/
theorem C6_search_parameter (c : IntersectionCurve) (point : V3) (hint : Option ℚ)
    (trials : ℕ) (t : ℚ) (pt : V3)
    (hsnp : c.leader.search_nearest_parameter point hint trials = some t)
    (hsubs : c.subs t = PanicOr.value pt) :
    (near pt point → c.search_parameter point hint trials = PanicOr.value (some t))
    ∧ (¬ near pt point → c.search_parameter point hint trials = PanicOr.value none) := by
  constructor
  · intro h
    simp only [IntersectionCurve.search_parameter, hsnp, hsubs]
    rw [if_pos h]
  · intro h
    simp only [IntersectionCurve.search_parameter, hsnp, hsubs]
    rw [if_neg h]

/-- Witness for `C6_search_parameter` on the concrete scenario: querying
the origin finds parameter 0 and the exact point passes the tolerance
check. -/
theorem C6_witness :
    c8curve.leader.search_nearest_parameter ⟨0, 0, 0⟩ none 5 = some 0
    ∧ c8curve.subs 0 = PanicOr.value ⟨0, 0, 0⟩
    ∧ near ⟨0, 0, 0⟩ ⟨0, 0, 0⟩
    ∧ c8curve.search_parameter ⟨0, 0, 0⟩ none 5 = PanicOr.value (some 0) := by
  have hsubs : c8curve.subs 0 = PanicOr.value ⟨0, 0, 0⟩ := by
    simp only [IntersectionCurve.subs, c8_search_triple 0]
  exact ⟨rfl, hsubs, near_refl _,
    (C6_search_parameter c8curve ⟨0, 0, 0⟩ none 5 0 ⟨0, 0, 0⟩ rfl hsubs).1 (near_refl _)⟩

/-- C7: inversion replaces only the leader (by the leader capability's own
inversion); both surfaces and the stored tolerance are unchanged. -/
theorem C7_invert (ci : Curve → Curve) (c : IntersectionCurve) :
    (IntersectionCurve.invert ci c).surface0 = c.surface0
    ∧ (IntersectionCurve.invert ci c).surface1 = c.surface1
    ∧ (IntersectionCurve.invert ci c).tol = c.tol
    ∧ (IntersectionCurve.invert ci c).leader = ci c.leader :=
  ⟨rfl, rfl, rfl, rfl⟩

/-- C9: if the leader's nearest-parameter search fails, the entity's
parameter search panics (the `unwrap`), it does not report not-found; and
a not-found report can only arise from an existing candidate whose exact
point fails the tolerance check. -/
theorem C9_search_parameter_panic (c : IntersectionCurve) (point : V3) (hint : Option ℚ)
    (trials : ℕ) :
    (c.leader.search_nearest_parameter point hint trials = none →
      c.search_parameter point hint trials = PanicOr.panics)
    ∧ (c.search_parameter point hint trials = PanicOr.value none →
      ∃ t pt, c.leader.search_nearest_parameter point hint trials = some t
        ∧ c.subs t = PanicOr.value pt ∧ ¬ near pt point) := by
  constructor
  · intro h
    simp only [IntersectionCurve.search_parameter, h]
  · intro h
    cases e : c.leader.search_nearest_parameter point hint trials with
    | none =>
      simp only [IntersectionCurve.search_parameter, e] at h
      exact PanicOr.noConfusion h
    | some t =>
      cases es : c.subs t with
      | panics =>
        simp only [IntersectionCurve.search_parameter, e, es] at h
        exact PanicOr.noConfusion h
      | value pt =>
        by_cases hn : near pt point
        · simp only [IntersectionCurve.search_parameter, e, es, if_pos hn] at h
          injection h with h'
          exact Option.noConfusion h'
        · exact ⟨t, pt, rfl, es, hn⟩

/-- Witness for `C9_search_parameter_panic`: a leader whose search fails
makes parameter search panic; a faraway query on the concrete scenario
produces the recoverable not-found, with the promised candidate data. -/
theorem C9_witness :
    badLeaderEntity.leader.search_nearest_parameter ⟨0, 0, 0⟩ none 5 = none
    ∧ badLeaderEntity.search_parameter ⟨0, 0, 0⟩ none 5 = PanicOr.panics
    ∧ c8curve.search_parameter ⟨7, 0, 0⟩ none 5 = PanicOr.value none
    ∧ ∃ t pt, c8curve.leader.search_nearest_parameter ⟨7, 0, 0⟩ none 5 = some t
        ∧ c8curve.subs t = PanicOr.value pt ∧ ¬ near pt ⟨7, 0, 0⟩ := by
  have hsubs : c8curve.subs 0 = PanicOr.value ⟨0, 0, 0⟩ := by
    simp only [IntersectionCurve.subs, c8_search_triple 0]
  have hv : c8curve.search_parameter ⟨7, 0, 0⟩ none 5 = PanicOr.value none := by
    simp only [IntersectionCurve.search_parameter,
      show c8curve.leader.search_nearest_parameter ⟨7, 0, 0⟩ none 5 = some 0 from rfl, hsubs]
    rw [if_neg (by norm_num [near, dist2, Vec3.sub, Vec3.dot, TOLERANCE])]
  exact ⟨rfl, (C9_search_parameter_panic badLeaderEntity ⟨0, 0, 0⟩ none 5).1 rfl, hv,
    (C9_search_parameter_panic c8curve ⟨7, 0, 0⟩ none 5).2 hv⟩

/-- C10: the stored tolerance influences no evaluation: changing only
`tol` leaves point evaluation, derivative evaluation, parameter search and
nearest-parameter search literally unchanged; only the `tolerance`
accessor sees it. -/
theorem C10_tolerance_noninterference (c : IntersectionCurve) (tolval : ℚ) :
    (∀ t, ({ c with tol := tolval } : IntersectionCurve).subs t = c.subs t)
    ∧ (∀ t, ({ c with tol := tolval } : IntersectionCurve).der t = c.der t)
    ∧ (∀ p h n, ({ c with tol := tolval } : IntersectionCurve).search_parameter p h n =
        c.search_parameter p h n)
    ∧ (∀ p h n, ({ c with tol := tolval } : IntersectionCurve).search_nearest_parameter p h n =
        c.search_nearest_parameter p h n)
    ∧ ({ c with tol := tolval } : IntersectionCurve).tolerance = tolval :=
  ⟨fun _ => rfl, fun _ => rfl, fun _ _ _ => rfl, fun _ _ _ => rfl, rfl⟩

end Truck
